import Mathlib

/-!
Verification of the gift-buyer acquisition pipeline.

This file gives a shallow embedding, in Lean 4, of the core components of
the gift-buyer program: the atomic budget counter, the gift validator, the
monitor's poll step, the persistent gift cache's merge-on-save, the token
bucket rate limiter, and the purchase dispatcher's retry loop.  Machine
`int64` values are modelled as unbounded `Int` (the only increment in the
code is guarded by a strict comparison against the configured maximum, so
overflow is unreachable there); Go maps are modelled as association lists
read through `List.lookup`; fallible construction is modelled with
`Option`; the concurrency-free sequential semantics of each component is
taken directly from the source.
-/

namespace AtomicCounter

/-- State of `atomicCounter`: the current count and the configured maximum. -/
structure Counter where
  count : Int
  max : Int
deriving DecidableEq, Repr

/-- `NewAtomicCounter(max)`: count starts at zero. -/
def NewAtomicCounter (max : Int) : Counter :=
  { count := 0, max := max }

/-- `TryIncrement`: returns whether the increment happened, together with the
updated counter.  The CAS loop of the source serialises to: load the current
value, fail if it is at least `max`, otherwise store `current + 1`. -/
def TryIncrement (ac : Counter) : Bool × Counter :=
  if ac.count ≥ ac.max then (false, ac)
  else (true, { ac with count := ac.count + 1 })

/-- `Decrement`: unconditionally subtracts one. -/
def Decrement (ac : Counter) : Counter :=
  { ac with count := ac.count - 1 }

/-- `Get`: the current count. -/
def Get (ac : Counter) : Int := ac.count

/-- One operation of the counter's public mutating interface. -/
inductive CounterOp
  | tryInc
  | dec
deriving DecidableEq, Repr

/-- Apply one operation to the counter state. -/
def applyOp (ac : Counter) (op : CounterOp) : Counter :=
  match op with
  | .tryInc => (TryIncrement ac).2
  | .dec => Decrement ac

/-- Run a sequence of operations from a given state. -/
def runOps (ac : Counter) (ops : List CounterOp) : Counter :=
  match ops with
  | [] => ac
  | op :: rest => runOps (applyOp ac op) rest

/-- Number of `TryIncrement` calls, out of `n` consecutive ones with no
interleaved `Decrement`, that return `true`. -/
def tryIncSuccesses (ac : Counter) : Nat → Nat
  | 0 => 0
  | n + 1 =>
    (if (TryIncrement ac).1 then 1 else 0) + tryIncSuccesses (TryIncrement ac).2 n

end AtomicCounter

namespace GiftValidator

/-- The fields of `tg.StarGift` read by the validator and the monitor.
Optional (flag-guarded) fields are `Option`; the generated Go getters
return the zero value and `false` when the flag is unset. -/
structure StarGift where
  id : Int
  stars : Int
  soldOut : Bool
  limited : Bool
  availabilityRemains : Option Int
  availabilityTotal : Option Int
  releasedBy : Option Int
  requirePremium : Bool
deriving DecidableEq, Repr

/-- `gift.GetStars()`. -/
def StarGift.GetStars (g : StarGift) : Int := g.stars

/-- `gift.GetAvailabilityRemains()`: value-and-ok pair; zero value when absent. -/
def StarGift.GetAvailabilityRemains (g : StarGift) : Int × Bool :=
  (g.availabilityRemains.getD 0, g.availabilityRemains.isSome)

/-- `gift.GetAvailabilityTotal()`: value-and-ok pair; zero value when absent. -/
def StarGift.GetAvailabilityTotal (g : StarGift) : Int × Bool :=
  (g.availabilityTotal.getD 0, g.availabilityTotal.isSome)

/-- `gift.GetReleasedBy()`: value-and-ok pair; only the ok part is consulted. -/
def StarGift.GetReleasedBy (g : StarGift) : Int × Bool :=
  (g.releasedBy.getD 0, g.releasedBy.isSome)

/-- `gift.GetRequirePremium()`. -/
def StarGift.GetRequirePremium (g : StarGift) : Bool := g.requirePremium

/-- `config.Criterias`: one configured acquisition rule. -/
structure Criterias where
  minPrice : Int
  maxPrice : Int
  totalSupply : Int
  count : Int
  receiverType : List Int
  hide : Bool
deriving DecidableEq, Repr

/-- `giftTypes.GiftRequire`: an item matched to a criterion. -/
structure GiftRequire where
  gift : StarGift
  receiverType : List Int
  countForBuy : Int
  hide : Bool
deriving DecidableEq, Repr

/-- The configuration fields of `giftValidatorImpl`. -/
structure Validator where
  limitedStatus : Bool
  releaseBy : Bool
  premium : Bool
  criteria : List Criterias
  totalStarCap : Int
  testMode : Bool
deriving DecidableEq, Repr

/-- `priceValid`: the gift price lies in the criterion's closed range. -/
def priceValid (criteria : Criterias) (g : StarGift) : Bool :=
  let giftPrice := g.GetStars
  if giftPrice ≥ criteria.minPrice && giftPrice ≤ criteria.maxPrice then true
  else false

/-- `supplyValid`: bypassed in test mode; for limited gifts requires a present,
positive remaining supply and a total supply within the criterion's ceiling;
unlimited gifts always pass. -/
def supplyValid (gv : Validator) (criteria : Criterias) (g : StarGift) : Bool :=
  if gv.testMode then true
  else if g.limited then
    let remains := g.GetAvailabilityRemains
    if !remains.2 || remains.1 ≤ 0 then false
    else
      let totalSupply := g.GetAvailabilityTotal
      if !totalSupply.2 then false
      else if totalSupply.1 ≤ criteria.totalSupply then true
      else false
  else true

/-- `starCapValidation`: bypassed in test mode; otherwise requires
`price * totalSupply <= totalStarCap`, reading a missing total as zero. -/
def starCapValidation (gv : Validator) (g : StarGift) : Bool :=
  if gv.testMode then true
  else
    let price := g.GetStars
    let giftSupply := g.GetAvailabilityTotal.1
    price * giftSupply ≤ gv.totalStarCap

/-- `releaseByValidation`: rejects gifts carrying a releasedBy peer unless
the `releaseBy` toggle is on. -/
def releaseByValidation (gv : Validator) (g : StarGift) : Bool :=
  let hasReleasedBy := g.GetReleasedBy.2
  if hasReleasedBy && !gv.releaseBy then false else true

/-- `premiumValidation`: when the premium toggle is on, requires the gift
to demand premium. -/
def premiumValidation (gv : Validator) (g : StarGift) : Bool :=
  let premium := g.GetRequirePremium
  if gv.premium && !premium then false else true

/-- The loop body of `IsEligible`: first criterion whose price, supply and
spend-cap checks all pass wins. -/
def findCriteria (gv : Validator) (g : StarGift) : List Criterias → Option GiftRequire
  | [] => none
  | c :: rest =>
    if priceValid c g && supplyValid gv c g && starCapValidation gv g then
      some { gift := g, receiverType := c.receiverType, countForBuy := c.count, hide := c.hide }
    else findCriteria gv g rest

/-- `IsEligible`: the gate checks in source order, then the first-match scan
of the configured criteria.  `none` models the `(nil, false)` result. -/
def IsEligible (gv : Validator) (g : StarGift) : Option GiftRequire :=
  if g.soldOut then none
  else if g.limited != gv.limitedStatus then none
  else if !releaseByValidation gv g then none
  else if !premiumValidation gv g then none
  else findCriteria gv g gv.criteria

/-- The conjunction of the three per-criterion checks of the loop body. -/
def critPasses (gv : Validator) (c : Criterias) (g : StarGift) : Bool :=
  priceValid c g && supplyValid gv c g && starCapValidation gv g

end GiftValidator

namespace GiftMonitor

open GiftValidator

/-- Errors surfaced by the monitor's poll step: a failed catalog fetch, or
the distinguished first-run warm-up signal
(`errors.Wrap(errors.New("first run"), "touch grass")`). -/
inductive MonErr
  | fetch (msg : String)
  | firstRun
deriving DecidableEq, Repr

/-- The gift cache viewed as a map from gift id to gift, modelled as an
association list read through `List.lookup` (an insertion conses the new
binding, which is exactly a map overwrite under `lookup`). -/
def GiftCacheMap := List (Int × StarGift)

/-- `cache.HasGift(id)`. -/
def HasGift (cache : GiftCacheMap) (id : Int) : Bool :=
  (List.lookup id cache).isSome

/-- `cache.SetGift(id, gift)`. -/
def SetGift (cache : GiftCacheMap) (id : Int) (g : StarGift) : GiftCacheMap :=
  (id, g) :: cache

/-- The mutable state of `giftMonitorImpl` relevant to the poll step. -/
structure MonitorState where
  cache : GiftCacheMap
  firstRun : Bool
  testMode : Bool
  paused : Bool

/-- The loop body of `checkForNewGifts` over the fetched list: skip cached
ids, evaluate the validator on the rest, record every processed gift in the
cache.  Returns the final cache, the list of gifts handed to the validator,
and the collected eligible requirements (`giftRequire.Gift = gift` is the
source's fix-up of the returned requirement). -/
def processGifts (validator : StarGift → Option GiftRequire) :
    GiftCacheMap → List StarGift → GiftCacheMap × List StarGift × List GiftRequire
  | cache, [] => (cache, [], [])
  | cache, gift :: rest =>
    if HasGift cache gift.id then processGifts validator cache rest
    else
      let res := processGifts validator (SetGift cache gift.id gift) rest
      (res.1, gift :: res.2.1,
        match validator gift with
        | some r => { r with gift := gift } :: res.2.2
        | none => res.2.2)

/-- The observable outcome of one `checkForNewGifts` call: the successor
monitor state, the gifts that were handed to the validator, the eligible
requirements collected by the loop, and the returned value. -/
structure CheckOutcome where
  state : MonitorState
  evaluated : List StarGift
  collected : List GiftRequire
  result : Except MonErr (List GiftRequire)

/-- `checkForNewGifts`: fetch failures propagate; otherwise the loop runs,
and on the first run outside test mode the warm-up error is returned in
place of the collected matches (after clearing `firstRun`). -/
def checkForNewGifts (validator : StarGift → Option GiftRequire)
    (st : MonitorState) (fetched : Except String (List StarGift)) : CheckOutcome :=
  match fetched with
  | .error e => ⟨st, [], [], .error (.fetch e)⟩
  | .ok currentGifts =>
    let res := processGifts validator st.cache currentGifts
    if st.firstRun && !st.testMode then
      ⟨{ st with cache := res.1, firstRun := false }, res.2.1, res.2.2, .error .firstRun⟩
    else
      ⟨{ st with cache := res.1 }, res.2.1, res.2.2, .ok res.2.2⟩

/-- An event arriving at the `select` of the monitor's `Start` loop. -/
inductive StartEvent
  | ctxDone
  | tick
  | results (gs : List GiftRequire)
  | errEvent (e : MonErr)
deriving DecidableEq, Repr

/-- What the `Start` loop does with one event. -/
inductive StartAction
  | returnCtxErr
  | skipTick
  | spawnPoll
  | returnGifts (gs : List GiftRequire)
  | notifyAndContinue (e : MonErr)
  | continueSilently
deriving DecidableEq, Repr

/-- One dispatch of the `select` in `Start`: context cancellation returns;
ticks are skipped while paused and otherwise spawn a poll; a result returns
the gifts; an error is passed to `SendErrorNotification` unless the monitor
is paused, and the loop continues. -/
def startStep (paused : Bool) (ev : StartEvent) : StartAction :=
  match ev with
  | .ctxDone => .returnCtxErr
  | .tick => if paused then .skipTick else .spawnPoll
  | .results gs => .returnGifts gs
  | .errEvent e => if paused then .continueSilently else .notifyAndContinue e

/-- The event the poll goroutine pushes for one `checkForNewGifts` call:
errors go to the error channel, a nonempty match list goes to the result
channel, an empty one is only logged. -/
def pollEvent (validator : StarGift → Option GiftRequire)
    (st : MonitorState) (fetched : Except String (List StarGift)) : Option StartEvent :=
  match (checkForNewGifts validator st fetched).result with
  | .error e => some (.errEvent e)
  | .ok gs => if gs.length = 0 then none else some (.results gs)

/-- Whether a `Start` action invokes the Notifier's error-notification
operation (`SendErrorNotification`). -/
def invokesErrorNotify (a : StartAction) : Bool :=
  match a with
  | .notifyAndContinue _ => true
  | _ => false

end GiftMonitor

namespace GiftCache

open GiftValidator

/-- `CachedGift`: the serialized form of a cache entry. -/
structure CachedGift where
  id : Int
  stars : Int
deriving DecidableEq, Repr

/-- The durable snapshot: the JSON object of `cache.json`, a map from
decimal-string keys to entries, modelled as an association list read
through `List.lookup`. -/
def Snapshot := List (String × CachedGift)

/-- The merge loop of `saveToFile`: walk the in-memory entries, and add to
the snapshot exactly those whose key (`strconv.FormatInt(id, 10)`) is
absent, counting the additions. -/
def mergeNew : Snapshot → List (Int × StarGift) → Snapshot × Nat
  | existing, [] => (existing, 0)
  | existing, (id, g) :: rest =>
    let key := toString id
    if (List.lookup key existing).isSome then mergeNew existing rest
    else
      let res := mergeNew ((key, { id := g.id, stars := g.stars }) :: existing) rest
      (res.1, res.2 + 1)

/-- `saveToFile`: merge the in-memory entries into the snapshot; when the
merge added nothing, skip the write entirely (`none` models "no I/O on the
snapshot"), otherwise write the merged object. -/
def saveToFile (existing : Snapshot) (mem : List (Int × StarGift)) : Option Snapshot :=
  let res := mergeNew existing mem
  if res.2 = 0 then none else some res.1

end GiftCache

namespace RateLimiter

/-- The state of `rateLimiterImpl`: the number of permits currently in the
channel, the requested channel capacity, and whether the periodic refill
goroutine was started. -/
structure Limiter where
  tokens : Nat
  capacity : Int
  refillRunning : Bool
deriving DecidableEq, Repr

/-- `NewRateLimiter(rps)`.  `make(chan struct{}, rps)` faults (panics) for a
negative capacity, modelled as `none`; otherwise the initial-fill loop
pushes `rps` permits and the refill goroutine is started only for a
positive rate. -/
def NewRateLimiter (rps : Int) : Option Limiter :=
  if rps < 0 then none
  else some { tokens := rps.toNat, capacity := rps, refillRunning := decide (rps > 0) }

/-- One firing of the refill ticker: when the refill goroutine is running it
pushes a permit unless the bucket is full; with no goroutine nothing
happens. -/
def refillTick (rl : Limiter) : Limiter :=
  if rl.refillRunning then
    if rl.tokens < rl.capacity.toNat then { rl with tokens := rl.tokens + 1 } else rl
  else rl

/-- Result of an `Acquire` call. -/
inductive AcquireOutcome
  | acquired
  | ctxError
deriving DecidableEq, Repr

/-- `Acquire(ctx)` as a function of how many refill ticks fire before the
context is cancelled or expires: the select takes a permit as soon as one is
present, and returns the context's error when the context fires first. -/
def Acquire (rl : Limiter) : Nat → AcquireOutcome
  | 0 => if rl.tokens > 0 then .acquired else .ctxError
  | n + 1 => if rl.tokens > 0 then .acquired else Acquire (refillTick rl) n

end RateLimiter

namespace PurchaseProcessor

/-- The variants of `tg.PaymentsPaymentFormClass` the purchase switch
distinguishes: the two star forms, the regular payment form, and the
default case of any other concrete type. -/
inductive PaymentFormClass
  | stars (formID : Int)
  | starGift (formID : Int)
  | regular
  | other (typeName : String)
deriving DecidableEq, Repr

/-- The collaborator outcomes one `PurchaseGift` call can observe: the
balance pre-check result, the payment-form request result, and the
star-payment send result (an error message, or success). -/
structure PurchaseEnv where
  validatePurchase : Bool
  createPaymentForm : Except String PaymentFormClass
  sendStarsForm : Option String
deriving Repr

/-- `PurchaseGift`: balance pre-check first, then the payment form, then the
switch on the form's kind; `some msg` models a non-nil error return. -/
def PurchaseGift (env : PurchaseEnv) : Option String :=
  if !env.validatePurchase then some "insufficient balance to buy gift"
  else
    match env.createPaymentForm with
    | .error e => some ("failed to send stars form: " ++ e)
    | .ok form =>
      match form with
      | .stars _ => env.sendStarsForm
      | .starGift _ => env.sendStarsForm
      | .regular => some "regular payment form not supported for star gifts"
      | .other t => some ("unexpected payment form type: " ++ t)

end PurchaseProcessor

namespace GiftBuyer

/-- The error carried by an emitted `GiftResult`: a context error, the
budget-exhaustion error, or a purchase-pipeline error message. -/
inductive BuyErr
  | ctxErr
  | maxBuyCount
  | pipe (msg : String)
deriving DecidableEq, Repr

/-- `giftTypes.GiftResult` as emitted on the result channel. -/
structure GiftResult where
  giftID : Int
  success : Bool
  err : Option BuyErr
deriving DecidableEq, Repr

/-- One observable action of `buyGiftWithRetry`: a send on the result
channel, a `PurchaseGift` call, a `Counter.Decrement` call, or the backoff
sleep, each tagged with the attempt index it happens on. -/
inductive BuyEvent
  | emit (r : GiftResult)
  | purchaseCall (attempt : Nat)
  | decrementCall (attempt : Nat)
  | sleepCall (attempt : Nat)
deriving DecidableEq, Repr

/-- The environment one `buyGiftWithRetry` run observes, per attempt index:
whether the context is already done, what the budget counter answers, and
what the purchase pipeline returns (`some msg` is an error). -/
structure BuyEnv where
  retryCount : Nat
  ctxDone : Nat → Bool
  tryIncrement : Nat → Bool
  purchase : Nat → Option String

/-- The retry loop of `buyGiftWithRetry`, indexed by the number of
remaining attempts (`remaining` counts the current one; the loop guard
`j < retryCount` is `remaining > 0`) and the index `j` of the current
attempt.  The backoff sleep is skipped exactly on the final attempt
(`j < retryCount - 1` is `remaining > 1`).  When the attempts are
exhausted, the source emits one more failed result carrying `lastErr`. -/
def buyLoop (env : BuyEnv) (giftID : Int) :
    Nat → Nat → Option BuyErr → List BuyEvent
  | 0, _, lastErr => [.emit { giftID := giftID, success := false, err := lastErr }]
  | remaining + 1, j, _lastErr =>
    if env.ctxDone j then
      [.emit { giftID := giftID, success := false, err := some .ctxErr }]
    else if !env.tryIncrement j then
      [.emit { giftID := giftID, success := false, err := some .maxBuyCount }]
    else
      .purchaseCall j ::
        match env.purchase j with
        | some msg =>
          .decrementCall j ::
          .emit { giftID := giftID, success := false, err := some (.pipe msg) } ::
          ((if remaining > 0 then [BuyEvent.sleepCall j] else []) ++
            buyLoop env giftID remaining (j + 1) (some (.pipe msg)))
        | none =>
          [.emit { giftID := giftID, success := true, err := none }]
  -- `lastErr` starts as the Go `nil` and is only ever replaced by the latest
  -- pipeline error; the budget-exhaustion branch returns before it is read.

/-- `buyGiftWithRetry`: the loop starts at attempt 0 with `retryCount`
attempts remaining and a nil `lastErr`. -/
def buyGiftWithRetry (env : BuyEnv) (giftID : Int) : List BuyEvent :=
  buyLoop env giftID env.retryCount 0 none

/-- The results sent on the result channel during a run. -/
def emittedResults (tr : List BuyEvent) : List GiftResult :=
  tr.filterMap fun e =>
    match e with
    | .emit r => some r
    | _ => none

end GiftBuyer

/-!
Concrete instances used by the closed theorems below.
-/

namespace GiftValidator

/-- A limited gift matching the configured criteria (end-to-end scenario 1). -/
def giftW : StarGift :=
  { id := 1, stars := 50, soldOut := false, limited := true,
    availabilityRemains := some 10, availabilityTotal := some 80,
    releasedBy := none, requirePremium := false }

/-- A criterion matching `giftW`, buying three. -/
def criteriaA : Criterias :=
  { minPrice := 10, maxPrice := 100, totalSupply := 100, count := 3,
    receiverType := [1], hide := false }

/-- A second criterion also matching `giftW`, buying five. -/
def criteriaB : Criterias :=
  { minPrice := 10, maxPrice := 100, totalSupply := 100, count := 5,
    receiverType := [2], hide := true }

/-- A validator configured with the two criteria above. -/
def validatorW : Validator :=
  { limitedStatus := true, releaseBy := false, premium := false,
    criteria := [criteriaA, criteriaB], totalStarCap := 10000, testMode := false }

/-- An unlimited gift priced above the small spend cap used with it. -/
def giftUnlimitedW : StarGift :=
  { id := 2, stars := 500, soldOut := false, limited := false,
    availabilityRemains := none, availabilityTotal := none,
    releasedBy := none, requirePremium := false }

/-- A validator whose spend cap is below `giftUnlimitedW`'s price. -/
def validatorCapW : Validator :=
  { limitedStatus := false, releaseBy := false, premium := false,
    criteria := [criteriaA], totalStarCap := 10, testMode := false }

end GiftValidator

namespace GiftMonitor

open GiftValidator

/-- A fresh monitor state before its first poll, test mode off. -/
def monStateW : MonitorState :=
  { cache := [], firstRun := true, testMode := false, paused := false }

/-- The per-gift validator the monitor consults, instantiated with `validatorW`. -/
def monValidatorW : StarGift → Option GiftRequire :=
  fun g => IsEligible validatorW g

end GiftMonitor

namespace GiftCache

open GiftValidator

/-- A durable snapshot holding one entry under key "1". -/
def snapshotW : Snapshot := [("1", { id := 1, stars := 5 })]

/-- An in-memory cache whose single entry is already in `snapshotW`. -/
def memOldW : List (Int × StarGift) := [(1, giftW)]

/-- An in-memory cache with one entry absent from `snapshotW`. -/
def memNewW : List (Int × StarGift) := [(2, giftUnlimitedW)]

end GiftCache

namespace RateLimiter

/-- The limiter state produced by `NewRateLimiter 0`. -/
def limiterZeroW : Limiter := { tokens := 0, capacity := 0, refillRunning := false }

/-- `n` firings of the refill ticker. -/
def refillTicks (rl : Limiter) : Nat → Limiter
  | 0 => rl
  | n + 1 => refillTicks (refillTick rl) n

end RateLimiter

namespace GiftBuyer

/-- A run environment in which every pipeline call fails, the context stays
live and the budget is never exhausted (two attempts configured). -/
def envAllFail : BuyEnv :=
  { retryCount := 2, ctxDone := fun _ => false, tryIncrement := fun _ => true,
    purchase := fun _ => some "pipeline failure" }

/-- A run environment whose budget counter is exhausted from the start. -/
def envBudget : BuyEnv :=
  { retryCount := 3, ctxDone := fun _ => false, tryIncrement := fun _ => false,
    purchase := fun _ => none }

/-- A run environment whose pipeline fails every attempt with the balance
pre-check's validation error, produced by the embedded `PurchaseGift`. -/
def envValFail : BuyEnv :=
  { retryCount := 2, ctxDone := fun _ => false, tryIncrement := fun _ => true,
    purchase := fun _ => PurchaseProcessor.PurchaseGift
      { validatePurchase := false, createPaymentForm := .ok (.stars 1), sendStarsForm := none } }

end GiftBuyer

/-!
Theorems.
-/

namespace AtomicCounter

/-- Successes of `n` consecutive `TryIncrement` calls: the remaining headroom
caps the count. -/
lemma tryIncSuccesses_eq_min (n : Nat) :
    ∀ ac : Counter, ac.count ≤ ac.max →
      tryIncSuccesses ac n = min n (ac.max - ac.count).toNat := by
  induction n with
  | zero => intro ac _; simp [tryIncSuccesses]
  | succ n ih =>
    intro ac h
    by_cases hc : ac.count ≥ ac.max
    · have hz : (ac.max - ac.count).toNat = 0 := by omega
      simp [tryIncSuccesses, TryIncrement, hc, ih ac h, hz]
    · push_neg at hc
      have h2 : ac.count + 1 ≤ ac.max := by omega
      have ht : TryIncrement ac = (true, { ac with count := ac.count + 1 }) := by
        simp [TryIncrement, not_le.mpr hc]
      simp only [tryIncSuccesses, ht, if_true, ih { ac with count := ac.count + 1 } h2]
      omega

/-- The maximum field is unchanged and the count stays at or below it under
any sequence of operations. -/
lemma runOps_bounded (ops : List CounterOp) :
    ∀ ac : Counter, ac.count ≤ ac.max →
      (runOps ac ops).max = ac.max ∧ (runOps ac ops).count ≤ ac.max := by
  induction ops with
  | nil => intro ac h; simp [runOps, h]
  | cons op rest ih =>
    intro ac h
    cases op with
    | tryInc =>
      by_cases hc : ac.count ≥ ac.max
      · simpa [runOps, applyOp, TryIncrement, hc] using ih ac h
      · push_neg at hc
        have h2 : ac.count + 1 ≤ ac.max := by omega
        simpa [runOps, applyOp, TryIncrement, not_le.mpr hc] using
          ih { ac with count := ac.count + 1 } h2
    | dec =>
      have h2 : ac.count - 1 ≤ ac.max := by omega
      simpa [runOps, applyOp, Decrement] using ih { ac with count := ac.count - 1 } h2

/-- Claim C1: `TryIncrement` succeeds and adds one exactly when the value is
strictly below the ceiling and otherwise fails leaving the state unchanged;
a burst of `N` `TryIncrement` calls from a fresh counter with ceiling
`C >= 0` yields exactly `min N C` successes; and the value never exceeds the
ceiling under any sequence of `TryIncrement`/`Decrement` operations. -/
theorem tryIncrement_budget_spec (C : Int) (hC : 0 ≤ C) :
    (∀ ac : Counter,
      ((TryIncrement ac).1 = true ↔ ac.count < ac.max)
      ∧ (ac.count < ac.max → (TryIncrement ac).2.count = ac.count + 1
          ∧ (TryIncrement ac).2.max = ac.max)
      ∧ (¬ ac.count < ac.max → (TryIncrement ac).1 = false ∧ (TryIncrement ac).2 = ac))
    ∧ (∀ N : Nat, tryIncSuccesses (NewAtomicCounter C) N = min N C.toNat)
    ∧ (∀ ops : List CounterOp, Get (runOps (NewAtomicCounter C) ops) ≤ C) := by
  refine ⟨fun ac => ⟨?_, fun h => ?_, fun h => ?_⟩, fun N => ?_, fun ops => ?_⟩
  · constructor
    · intro h
      by_contra hc
      simp [TryIncrement, not_lt.mp hc] at h
    · intro h
      simp [TryIncrement, not_le.mpr h]
  · simp [TryIncrement, not_le.mpr h]
  · simp [TryIncrement, not_lt.mp h]
  · have := tryIncSuccesses_eq_min N (NewAtomicCounter C) (by simp [NewAtomicCounter]; omega)
    simpa [NewAtomicCounter] using this
  · have := runOps_bounded ops (NewAtomicCounter C) (by simp [NewAtomicCounter]; omega)
    simpa [Get, NewAtomicCounter] using this.2

/-- Closed instance of C1 at ceiling 2. -/
theorem tryIncrement_budget_spec_witness :
    0 ≤ (2 : Int)
    ∧ ((∀ ac : Counter,
        ((TryIncrement ac).1 = true ↔ ac.count < ac.max)
        ∧ (ac.count < ac.max → (TryIncrement ac).2.count = ac.count + 1
            ∧ (TryIncrement ac).2.max = ac.max)
        ∧ (¬ ac.count < ac.max → (TryIncrement ac).1 = false ∧ (TryIncrement ac).2 = ac))
      ∧ (∀ N : Nat, tryIncSuccesses (NewAtomicCounter 2) N = min N (2 : Int).toNat)
      ∧ (∀ ops : List CounterOp, Get (runOps (NewAtomicCounter 2) ops) ≤ 2)) :=
  ⟨by decide, tryIncrement_budget_spec 2 (by decide)⟩

end AtomicCounter

namespace GiftValidator

/-- `findCriteria` returns the requirement built from the first criterion in
list order whose three checks pass. -/
lemma findCriteria_first (gv : Validator) (g : StarGift) :
    ∀ (l : List Criterias) (i : Nat) (hi : i < l.length),
      critPasses gv (l.get ⟨i, hi⟩) g = true →
      (∀ k : Nat, ∀ hk : k < i, critPasses gv (l.get ⟨k, Nat.lt_trans hk hi⟩) g = false) →
      findCriteria gv g l = some
        { gift := g, receiverType := (l.get ⟨i, hi⟩).receiverType,
          countForBuy := (l.get ⟨i, hi⟩).count, hide := (l.get ⟨i, hi⟩).hide } := by
  intro l
  induction l with
  | nil => intro i hi; simp at hi
  | cons c rest ih =>
    intro i hi hpass hfirst
    cases i with
    | zero =>
      simp only [List.get] at hpass ⊢
      simp only [critPasses] at hpass
      simp [findCriteria, hpass]
    | succ i =>
      have hc0 : critPasses gv c g = false := hfirst 0 (Nat.succ_pos i)
      simp only [critPasses] at hc0
      simp only [List.get] at hpass ⊢
      have := ih i (Nat.lt_of_succ_lt_succ hi) hpass
        (fun k hk => hfirst (k + 1) (Nat.succ_lt_succ hk))
      simp [findCriteria, hc0, this]

/-- `findCriteria` returns nothing when no criterion passes. -/
lemma findCriteria_none (gv : Validator) (g : StarGift) :
    ∀ l : List Criterias, (∀ c ∈ l, critPasses gv c g = false) →
      findCriteria gv g l = none := by
  intro l
  induction l with
  | nil => intro _; simp [findCriteria]
  | cons c rest ih =>
    intro h
    have hc : critPasses gv c g = false := h c (List.mem_cons_self c rest)
    simp only [critPasses] at hc
    simp [findCriteria, hc, ih fun d hd => h d (List.mem_cons_of_mem c hd)]

/-- Under the four gate checks, `IsEligible` reduces to the criteria scan. -/
lemma isEligible_gates (gv : Validator) (g : StarGift)
    (h1 : g.soldOut = false) (h2 : g.limited = gv.limitedStatus)
    (h3 : releaseByValidation gv g = true) (h4 : premiumValidation gv g = true) :
    IsEligible gv g = findCriteria gv g gv.criteria := by
  simp [IsEligible, h1, h2, h3, h4]

/-- Claim C3: for a gift passing the sold-out, limited-status, releaser and
premium gates, `IsEligible` returns the requirement of the first criterion
in configured order whose price-in-range (both ends inclusive), supply and
spend-cap checks all hold — carrying that criterion's quantity, receiver set
and hide flag — and returns nothing when no criterion passes. -/
theorem isEligible_first_match (gv : Validator) (g : StarGift)
    (h1 : g.soldOut = false) (h2 : g.limited = gv.limitedStatus)
    (h3 : releaseByValidation gv g = true) (h4 : premiumValidation gv g = true) :
    (∀ c : Criterias, priceValid c g = true ↔ c.minPrice ≤ g.stars ∧ g.stars ≤ c.maxPrice)
    ∧ (∀ i : Nat, ∀ hi : i < gv.criteria.length,
        critPasses gv (gv.criteria.get ⟨i, hi⟩) g = true →
        (∀ k : Nat, ∀ hk : k < i, critPasses gv (gv.criteria.get ⟨k, Nat.lt_trans hk hi⟩) g = false) →
        IsEligible gv g = some
          { gift := g, receiverType := (gv.criteria.get ⟨i, hi⟩).receiverType,
            countForBuy := (gv.criteria.get ⟨i, hi⟩).count,
            hide := (gv.criteria.get ⟨i, hi⟩).hide })
    ∧ ((∀ c ∈ gv.criteria, critPasses gv c g = false) → IsEligible gv g = none) := by
  refine ⟨fun c => ?_, fun i hi hpass hfirst => ?_, fun h => ?_⟩
  · simp only [priceValid, StarGift.GetStars]
    constructor
    · intro hp
      by_contra hcon
      rw [if_neg] at hp
      · exact Bool.false_ne_true hp
      · intro hb
        simp only [Bool.and_eq_true, decide_eq_true_eq, ge_iff_le] at hb
        exact hcon ⟨hb.1, hb.2⟩
    · intro hp
      rw [if_pos]
      simp only [Bool.and_eq_true, decide_eq_true_eq, ge_iff_le]
      exact ⟨hp.1, hp.2⟩
  · rw [isEligible_gates gv g h1 h2 h3 h4]
    exact findCriteria_first gv g gv.criteria i hi hpass hfirst
  · rw [isEligible_gates gv g h1 h2 h3 h4]
    exact findCriteria_none gv g gv.criteria h

/-- Closed instance of C3: `giftW` also satisfies the later criterion
`criteriaB`, yet `IsEligible` returns `criteriaA`'s quantity, receiver set
and hide flag. -/
theorem isEligible_first_match_witness :
    critPasses validatorW criteriaB giftW = true
    ∧ IsEligible validatorW giftW = some
        { gift := giftW, receiverType := [1], countForBuy := 3, hide := false } :=
  ⟨by decide,
    (isEligible_first_match validatorW giftW rfl rfl rfl rfl).2.1 0 (by decide) (by decide)
      (fun k hk => absurd hk (Nat.not_lt_zero k))⟩

/-- Claim C10: with test mode off, a gift whose availability-total attribute
is absent has its total supply read as zero, so the spend-cap check passes
for every nonnegative configured cap. -/
theorem starCap_missing_total (gv : Validator) (g : StarGift)
    (h1 : gv.testMode = false) (h2 : g.availabilityTotal = none)
    (h3 : 0 ≤ gv.totalStarCap) :
    g.GetAvailabilityTotal.1 = 0 ∧ starCapValidation gv g = true := by
  constructor
  · simp [StarGift.GetAvailabilityTotal, h2]
  · simp [starCapValidation, h1, StarGift.GetAvailabilityTotal, h2, StarGift.GetStars]
    omega

/-- Closed instance of C10: the unlimited gift's price (500) exceeds the
configured cap (10), yet the spend-cap check passes. -/
theorem starCap_missing_total_witness :
    giftUnlimitedW.stars = 500 ∧ validatorCapW.totalStarCap = 10
    ∧ giftUnlimitedW.GetAvailabilityTotal.1 = 0
    ∧ starCapValidation validatorCapW giftUnlimitedW = true :=
  ⟨by decide, by decide,
    (starCap_missing_total validatorCapW giftUnlimitedW rfl rfl (by decide)).1,
    (starCap_missing_total validatorCapW giftUnlimitedW rfl rfl (by decide)).2⟩

end GiftValidator

namespace GiftMonitor

open GiftValidator

/-- Inserting a binding preserves membership of any present id. -/
lemma hasGift_setGift_of (cache : GiftCacheMap) (gid : Int) (g : StarGift) (id : Int)
    (h : HasGift cache id = true) : HasGift (SetGift cache gid g) id = true := by
  simp only [HasGift, SetGift]
  cases hbe : (id == gid) with
  | true => simp [List.lookup, hbe]
  | false =>
    simp only [List.lookup, hbe]
    exact h

/-- The id just inserted is present. -/
lemma hasGift_setGift_self (cache : GiftCacheMap) (gid : Int) (g : StarGift) :
    HasGift (SetGift cache gid g) gid = true := by
  simp [HasGift, SetGift, List.lookup]

/-- An id absent after an insertion was absent before it. -/
lemma hasGift_of_setGift_absent (cache : GiftCacheMap) (gid : Int) (g : StarGift) (id : Int)
    (h : HasGift (SetGift cache gid g) id = false) : HasGift cache id = false := by
  cases hcc : HasGift cache id with
  | false => rfl
  | true => rw [hasGift_setGift_of cache gid g id hcc] at h; cases h

/-- The cache only grows during the poll loop. -/
lemma processGifts_cache_mono (validator : StarGift → Option GiftRequire) :
    ∀ (gifts : List StarGift) (cache : GiftCacheMap) (id : Int),
      HasGift cache id = true →
      HasGift (processGifts validator cache gifts).1 id = true := by
  intro gifts
  induction gifts with
  | nil => intro cache id h; simpa [processGifts] using h
  | cons gift rest ih =>
    intro cache id h
    by_cases hc : HasGift cache gift.id
    · simpa [processGifts, hc] using ih cache id h
    · have h2 := hasGift_setGift_of cache gift.id gift id h
      simpa [processGifts, hc] using ih (SetGift cache gift.id gift) id h2

/-- After the poll loop, every processed gift is in the cache. -/
lemma processGifts_covers (validator : StarGift → Option GiftRequire) :
    ∀ (gifts : List StarGift) (cache : GiftCacheMap),
      ∀ g ∈ gifts, HasGift (processGifts validator cache gifts).1 g.id = true := by
  intro gifts
  induction gifts with
  | nil => intro cache g hg; simp at hg
  | cons gift rest ih =>
    intro cache g hg
    rcases List.mem_cons.mp hg with hg | hg
    · subst hg
      by_cases hc : HasGift cache g.id
      · simpa [processGifts, hc] using
          processGifts_cache_mono validator rest cache g.id hc
      · have h2 := hasGift_setGift_self cache g.id g
        simpa [processGifts, hc] using
          processGifts_cache_mono validator rest (SetGift cache g.id g) g.id h2
    · by_cases hc : HasGift cache gift.id
      · simpa [processGifts, hc] using ih cache g hg
      · simpa [processGifts, hc] using ih (SetGift cache gift.id gift) g hg

/-- A gift is only handed to the validator when its id is absent from the
cache the call started with. -/
lemma processGifts_evaluated_fresh (validator : StarGift → Option GiftRequire) :
    ∀ (gifts : List StarGift) (cache : GiftCacheMap),
      ∀ g ∈ (processGifts validator cache gifts).2.1, HasGift cache g.id = false := by
  intro gifts
  induction gifts with
  | nil => intro cache g hg; simp [processGifts] at hg
  | cons gift rest ih =>
    intro cache g hg
    by_cases hc : HasGift cache gift.id
    · simp only [processGifts, hc, if_true] at hg
      exact ih cache g hg
    · simp only [processGifts, hc, if_false, Bool.false_eq_true] at hg
      rcases List.mem_cons.mp hg with hg | hg
      · subst hg
        exact Bool.not_eq_true _ ▸ (Bool.eq_false_iff.mpr hc)
      · exact hasGift_of_setGift_absent cache gift.id gift g.id
          (ih (SetGift cache gift.id gift) g hg)

/-- The collected requirements are exactly the validator's verdicts on the
evaluated gifts, each with its gift field set. -/
lemma processGifts_collected (validator : StarGift → Option GiftRequire) :
    ∀ (gifts : List StarGift) (cache : GiftCacheMap),
      (processGifts validator cache gifts).2.2
        = (processGifts validator cache gifts).2.1.filterMap
            (fun g => (validator g).map fun r => { r with gift := g }) := by
  intro gifts
  induction gifts with
  | nil => intro cache; simp [processGifts]
  | cons gift rest ih =>
    intro cache
    by_cases hc : HasGift cache gift.id
    · simpa [processGifts, hc] using ih cache
    · simp only [processGifts, hc, if_false, Bool.false_eq_true, List.filterMap_cons]
      rcases hv : validator gift with _ | r
      · simpa [hv] using ih (SetGift cache gift.id gift)
      · simpa [hv] using ih (SetGift cache gift.id gift)

/-- Claim C4: on the monitor's first successful poll with test mode off,
every fetched item ends up in the cache, the result is the distinguished
warm-up error with zero matches regardless of eligibility, and the first-run
flag clears; gifts already cached are never handed to the validator, and
every later successful poll returns the collected matches. -/
theorem first_poll_warm_up (validator : StarGift → Option GiftRequire)
    (st : MonitorState) (gifts : List StarGift)
    (h1 : st.firstRun = true) (h2 : st.testMode = false) :
    (checkForNewGifts validator st (.ok gifts)).result = .error .firstRun
    ∧ (∀ g ∈ gifts, HasGift (checkForNewGifts validator st (.ok gifts)).state.cache g.id = true)
    ∧ (checkForNewGifts validator st (.ok gifts)).state.firstRun = false
    ∧ (∀ id : Int, HasGift st.cache id = true →
        HasGift (checkForNewGifts validator st (.ok gifts)).state.cache id = true)
    ∧ (∀ (st' : MonitorState) (gifts' : List StarGift),
        ∀ g ∈ (checkForNewGifts validator st' (.ok gifts')).evaluated,
          HasGift st'.cache g.id = false)
    ∧ (∀ (st' : MonitorState) (gifts' : List StarGift), st'.firstRun = false →
        (checkForNewGifts validator st' (.ok gifts')).result
          = .ok (checkForNewGifts validator st' (.ok gifts')).collected)
    ∧ (∀ (st' : MonitorState) (gifts' : List StarGift),
        (checkForNewGifts validator st' (.ok gifts')).collected
          = (checkForNewGifts validator st' (.ok gifts')).evaluated.filterMap
              (fun g => (validator g).map fun r => { r with gift := g })) := by
  refine ⟨?_, fun g hg => ?_, ?_, fun id h => ?_, fun st' gifts' g hg => ?_,
    fun st' gifts' h => ?_, fun st' gifts' => ?_⟩
  · simp [checkForNewGifts, h1, h2]
  · simpa [checkForNewGifts, h1, h2] using processGifts_covers validator gifts st.cache g hg
  · simp [checkForNewGifts, h1, h2]
  · simpa [checkForNewGifts, h1, h2] using processGifts_cache_mono validator gifts st.cache id h
  · have hfresh := processGifts_evaluated_fresh validator gifts' st'.cache g
    simp only [checkForNewGifts] at hg
    split at hg
    · exact hfresh hg
    · exact hfresh hg
  · simp [checkForNewGifts, h]
  · have hcoll := processGifts_collected validator gifts' st'.cache
    simp only [checkForNewGifts]
    split
    · exact hcoll
    · exact hcoll

/-- Closed instance of C4: the monitor's first poll over two brand-new items
(one of them eligible) returns the warm-up signal, yet both items land in
the cache. -/
theorem first_poll_warm_up_witness :
    (checkForNewGifts monValidatorW monStateW (.ok [giftW, giftUnlimitedW])).result
      = .error .firstRun
    ∧ HasGift (checkForNewGifts monValidatorW monStateW
        (.ok [giftW, giftUnlimitedW])).state.cache giftW.id = true
    ∧ HasGift (checkForNewGifts monValidatorW monStateW
        (.ok [giftW, giftUnlimitedW])).state.cache giftUnlimitedW.id = true :=
  ⟨(first_poll_warm_up monValidatorW monStateW [giftW, giftUnlimitedW] rfl rfl).1,
    (first_poll_warm_up monValidatorW monStateW [giftW, giftUnlimitedW] rfl rfl).2.1
      giftW (by simp),
    (first_poll_warm_up monValidatorW monStateW [giftW, giftUnlimitedW] rfl rfl).2.1
      giftUnlimitedW (by simp)⟩

end GiftMonitor

namespace GiftMonitor

open GiftValidator

/-- Counterexample to claim C8 as stated: the first poll (test mode off,
monitor unpaused) delivers the warm-up error to `Start`'s error channel, and
the error branch invokes `SendErrorNotification` on it — the loop never
distinguishes the warm-up signal from a real poll error. -/
theorem warm_up_notifies_cex :
    pollEvent monValidatorW monStateW (.ok [giftW, giftUnlimitedW])
      = some (.errEvent .firstRun)
    ∧ invokesErrorNotify (startStep false (.errEvent .firstRun)) = true := by
  constructor
  · rfl
  · rfl

/-- Claim C8 (amended): the warm-up error produced by the first poll flows
to the same error channel as real poll errors, and `Start` invokes the
error-notification operation on it exactly as for any poll error — whenever
the monitor is not paused; the warm-up poll still never hands gifts to the
purchase path, since only a result event returns gifts. -/
theorem warm_up_notified_like_real_error (validator : StarGift → Option GiftRequire)
    (st : MonitorState) (gifts : List StarGift) (paused : Bool)
    (h1 : st.firstRun = true) (h2 : st.testMode = false) :
    pollEvent validator st (.ok gifts) = some (.errEvent .firstRun)
    ∧ (∀ e : MonErr, invokesErrorNotify (startStep paused (.errEvent e)) = !paused)
    ∧ (∀ (e : MonErr) (gs : List GiftRequire), startStep paused (.errEvent e) ≠ .returnGifts gs) := by
  refine ⟨?_, fun e => ?_, fun e gs => ?_⟩
  · simp [pollEvent, checkForNewGifts, h1, h2]
  · cases paused <;> simp [startStep, invokesErrorNotify]
  · cases paused <;> simp [startStep]

/-- Closed instance of the amended C8 on the concrete first poll. -/
theorem warm_up_notified_like_real_error_witness :
    pollEvent monValidatorW monStateW (.ok [giftW]) = some (.errEvent .firstRun)
    ∧ invokesErrorNotify (startStep false (.errEvent .firstRun)) = !false :=
  ⟨(warm_up_notified_like_real_error monValidatorW monStateW [giftW] false rfl rfl).1,
    (warm_up_notified_like_real_error monValidatorW monStateW [giftW] false rfl rfl).2.1
      .firstRun⟩

end GiftMonitor

namespace GiftCache

open GiftValidator

/-- Looking a key up past a cons with a different key. -/
lemma lookup_cons_ne {β : Type} (k key : String) (v : β) (l : List (String × β))
    (hk : ¬ k = key) : List.lookup k ((key, v) :: l) = List.lookup k l := by
  have hbe : (k == key) = false := by
    simpa [beq_iff_eq] using hk
  simp [List.lookup, hbe]

/-- The merge never modifies a binding already present in the snapshot. -/
lemma mergeNew_preserves :
    ∀ (mem : List (Int × StarGift)) (existing : Snapshot) (k : String) (v : CachedGift),
      List.lookup k existing = some v →
      List.lookup k (mergeNew existing mem).1 = some v := by
  intro mem
  induction mem with
  | nil => intro existing k v h; simpa [mergeNew] using h
  | cons p rest ih =>
    intro existing k v h
    rcases p with ⟨id, g⟩
    by_cases hp : (List.lookup (toString id) existing).isSome
    · simpa [mergeNew, hp] using ih existing k v h
    · have hk : ¬ k = toString id := by
        intro he
        rw [← he, h] at hp
        simp at hp
      have h2 : List.lookup k ((toString id, { id := g.id, stars := g.stars }) :: existing)
          = some v := by
        rw [lookup_cons_ne k (toString id) _ existing hk]
        exact h
      simpa [mergeNew, hp] using
        ih ((toString id, { id := g.id, stars := g.stars }) :: existing) k v h2

/-- A key absent from the snapshot is, after the merge, either still absent
or bound to the serialized form of an in-memory entry bearing that key. -/
lemma mergeNew_new_entries :
    ∀ (mem : List (Int × StarGift)) (existing : Snapshot) (k : String),
      List.lookup k existing = none →
      (List.lookup k (mergeNew existing mem).1 = none
        ∨ ∃ id g, (id, g) ∈ mem ∧ k = toString id
            ∧ List.lookup k (mergeNew existing mem).1 = some { id := g.id, stars := g.stars }) := by
  intro mem
  induction mem with
  | nil => intro existing k h; left; simpa [mergeNew] using h
  | cons p rest ih =>
    intro existing k h
    rcases p with ⟨id, g⟩
    by_cases hp : (List.lookup (toString id) existing).isSome
    · rcases ih existing k h with hl | ⟨id', g', hm, hk, hv⟩
      · left
        simpa [mergeNew, hp] using hl
      · right
        refine ⟨id', g', List.mem_cons_of_mem _ hm, hk, ?_⟩
        simpa [mergeNew, hp] using hv
    · by_cases hk : k = toString id
      · right
        refine ⟨id, g, List.mem_cons_self _ _, hk, ?_⟩
        have h2 : List.lookup k ((toString id, { id := g.id, stars := g.stars }) :: existing)
            = some { id := g.id, stars := g.stars } := by
          subst hk
          simp [List.lookup]
        have := mergeNew_preserves rest
          ((toString id, { id := g.id, stars := g.stars }) :: existing) k
          { id := g.id, stars := g.stars } h2
        simpa [mergeNew, hp] using this
      · have h2 : List.lookup k ((toString id, { id := g.id, stars := g.stars }) :: existing)
            = none := by
          rw [lookup_cons_ne k (toString id) _ existing hk]
          exact h
        rcases ih ((toString id, { id := g.id, stars := g.stars }) :: existing) k h2 with
          hl | ⟨id', g', hm, hk', hv⟩
        · left
          simpa [mergeNew, hp] using hl
        · right
          refine ⟨id', g', List.mem_cons_of_mem _ hm, hk', ?_⟩
          simpa [mergeNew, hp] using hv

/-- When every in-memory key is already in the snapshot, the merge counts
zero additions. -/
lemma mergeNew_count_zero :
    ∀ (mem : List (Int × StarGift)) (existing : Snapshot),
      (∀ p ∈ mem, (List.lookup (toString p.1) existing).isSome = true) →
      (mergeNew existing mem).2 = 0 := by
  intro mem
  induction mem with
  | nil => intro existing _; simp [mergeNew]
  | cons p rest ih =>
    intro existing h
    rcases p with ⟨id, g⟩
    have hp : (List.lookup (toString id) existing).isSome = true :=
      h (id, g) (List.mem_cons_self _ _)
    simpa [mergeNew, hp] using ih existing fun q hq => h q (List.mem_cons_of_mem _ hq)

/-- Claim C5: the periodic save merges rather than overwrites — every
binding in the durable snapshot survives unmodified, the only additions are
serializations of in-memory entries whose keys were absent, and a merge that
adds nothing performs no I/O on the snapshot. -/
theorem saveToFile_merge_spec (existing : Snapshot) (mem : List (Int × StarGift)) :
    (∀ (k : String) (v : CachedGift), List.lookup k existing = some v →
        List.lookup k (mergeNew existing mem).1 = some v)
    ∧ (∀ k : String, List.lookup k existing = none →
        (List.lookup k (mergeNew existing mem).1 = none
          ∨ ∃ id g, (id, g) ∈ mem ∧ k = toString id
              ∧ List.lookup k (mergeNew existing mem).1 = some { id := g.id, stars := g.stars }))
    ∧ ((∀ p ∈ mem, (List.lookup (toString p.1) existing).isSome = true) →
        saveToFile existing mem = none) :=
  ⟨fun k v h => mergeNew_preserves mem existing k v h,
    fun k h => mergeNew_new_entries mem existing k h,
    fun h => by simp [saveToFile, mergeNew_count_zero mem existing h]⟩

/-- Closed instance of C5: a fully-covered in-memory cache yields no write,
and adding a fresh entry keeps the old binding intact. -/
theorem saveToFile_merge_spec_witness :
    saveToFile snapshotW memOldW = none
    ∧ List.lookup "1" (mergeNew snapshotW memNewW).1 = some { id := 1, stars := 5 } :=
  ⟨(saveToFile_merge_spec snapshotW memOldW).2.2 (by decide),
    (saveToFile_merge_spec snapshotW memNewW).1 "1" { id := 1, stars := 5 } (by decide)⟩

end GiftCache

namespace RateLimiter

/-- Counterexample to claim C9 as stated: constructing the limiter with the
negative rate -1 does not succeed — `make(chan struct{}, rps)` faults on a
negative capacity. -/
theorem negative_rate_construction_cex : NewRateLimiter (-1) = none := by rfl

/-- With no refill goroutine the ticker leaves the state unchanged. -/
lemma refillTicks_no_goroutine (rl : Limiter) (h : rl.refillRunning = false) :
    ∀ n : Nat, refillTicks rl n = rl := by
  intro n
  induction n with
  | zero => rfl
  | succ n ih => simpa [refillTicks, refillTick, h] using ih

/-- An empty pool that is never refilled makes every `Acquire` end in the
context's error. -/
lemma acquire_starved (rl : Limiter) (h0 : rl.tokens = 0) (h1 : rl.refillRunning = false) :
    ∀ n : Nat, Acquire rl n = .ctxError := by
  intro n
  induction n with
  | zero => simp [Acquire, h0]
  | succ n ih => simpa [Acquire, h0, refillTick, h1] using ih

/-- Claim C9 (amended): construction with rate zero succeeds and yields a
limiter whose permit pool is empty and whose periodic refill never runs, so
every `Acquire` waits out the context and returns its error; construction
with a negative rate does not succeed but faults (negative channel
capacity). -/
theorem nonpositive_rate_limiter (rps : Int) (hneg : rps < 0) :
    NewRateLimiter rps = none
    ∧ NewRateLimiter 0 = some limiterZeroW
    ∧ limiterZeroW.tokens = 0
    ∧ limiterZeroW.refillRunning = false
    ∧ (∀ n : Nat, refillTicks limiterZeroW n = limiterZeroW)
    ∧ (∀ n : Nat, Acquire limiterZeroW n = .ctxError) := by
  refine ⟨?_, by rfl, by rfl, by rfl,
    refillTicks_no_goroutine limiterZeroW (by rfl),
    acquire_starved limiterZeroW (by rfl) (by rfl)⟩
  simp [NewRateLimiter, hneg]

/-- Closed instance of the amended C9 at rate -5. -/
theorem nonpositive_rate_limiter_witness :
    NewRateLimiter (-5) = none ∧ Acquire limiterZeroW 3 = .ctxError :=
  ⟨(nonpositive_rate_limiter (-5) (by decide)).1,
    (nonpositive_rate_limiter (-5) (by decide)).2.2.2.2.2 3⟩

end RateLimiter

namespace GiftBuyer

/-- Claim C2: when the context is live and the budget counter refuses the
reservation on the current attempt, the remainder of the run is exactly one
failed outcome carrying the "max buy count reached" error: the purchase
pipeline is not called, no decrement happens, and no further attempt is
made. -/
theorem budget_exhausted_terminal (env : BuyEnv) (giftID : Int)
    (remaining j : Nat) (lastErr : Option BuyErr)
    (hctx : env.ctxDone j = false) (hinc : env.tryIncrement j = false) :
    buyLoop env giftID (remaining + 1) j lastErr
      = [.emit { giftID := giftID, success := false, err := some .maxBuyCount }]
    ∧ (∀ k : Nat, BuyEvent.purchaseCall k ∉ buyLoop env giftID (remaining + 1) j lastErr)
    ∧ (∀ k : Nat, BuyEvent.decrementCall k ∉ buyLoop env giftID (remaining + 1) j lastErr)
    ∧ (emittedResults (buyLoop env giftID (remaining + 1) j lastErr)).length = 1 := by
  have heq : buyLoop env giftID (remaining + 1) j lastErr
      = [.emit { giftID := giftID, success := false, err := some .maxBuyCount }] := by
    simp [buyLoop, hctx, hinc]
  refine ⟨heq, fun k => ?_, fun k => ?_, ?_⟩
  · rw [heq]; simp
  · rw [heq]; simp
  · rw [heq]; rfl

/-- Closed instance of C2: an exhausted counter at the first of three
attempts yields the single budget failure. -/
theorem budget_exhausted_terminal_witness :
    buyGiftWithRetry envBudget 7
      = [.emit { giftID := 7, success := false, err := some .maxBuyCount }] :=
  (budget_exhausted_terminal envBudget 7 2 0 none rfl rfl).1

/-- Counterexample to claim C6 as stated: with two configured attempts and a
pipeline that always fails, the run emits three failed outcomes, not two —
after the loop exhausts, the source sends one more result carrying
`lastErr`. -/
theorem retry_extra_terminal_cex :
    (emittedResults (buyGiftWithRetry envAllFail 1)).length = envAllFail.retryCount + 1
    ∧ ¬ (emittedResults (buyGiftWithRetry envAllFail 1)).length = envAllFail.retryCount := by
  constructor
  · rfl
  · decide

/-- The retry loop under an always-failing pipeline: one emitted failure per
attempt, and a final extra emission repeating the last error (or handing
back `lastErr` when no attempt remains). -/
lemma buyLoop_all_fail (env : BuyEnv) (giftID : Int) (msg : Nat → String)
    (hctx : ∀ k, env.ctxDone k = false)
    (hinc : ∀ k, env.tryIncrement k = true)
    (hp : ∀ k, env.purchase k = some (msg k)) :
    ∀ (remaining j : Nat) (lastErr : Option BuyErr),
      emittedResults (buyLoop env giftID remaining j lastErr)
        = ((List.range' j remaining).map fun i =>
            { giftID := giftID, success := false, err := some (.pipe (msg i)) })
          ++ [{ giftID := giftID, success := false,
                err := if remaining = 0 then lastErr
                       else some (.pipe (msg (j + remaining - 1))) }] := by
  intro remaining
  induction remaining with
  | zero =>
    intro j lastErr
    simp [buyLoop, emittedResults, List.range']
  | succ remaining ih =>
    intro j lastErr
    have hstep : buyLoop env giftID (remaining + 1) j lastErr
        = .purchaseCall j :: .decrementCall j ::
          .emit { giftID := giftID, success := false, err := some (.pipe (msg j)) } ::
          ((if remaining > 0 then [BuyEvent.sleepCall j] else []) ++
            buyLoop env giftID remaining (j + 1) (some (.pipe (msg j)))) := by
      simp [buyLoop, hctx j, hinc j, hp j]
    rw [hstep]
    have hemit : emittedResults (.purchaseCall j :: .decrementCall j ::
          .emit { giftID := giftID, success := false, err := some (.pipe (msg j)) } ::
          ((if remaining > 0 then [BuyEvent.sleepCall j] else []) ++
            buyLoop env giftID remaining (j + 1) (some (.pipe (msg j)))))
        = { giftID := giftID, success := false, err := some (.pipe (msg j)) } ::
          emittedResults (buyLoop env giftID remaining (j + 1) (some (.pipe (msg j)))) := by
      by_cases hr : remaining > 0 <;>
        simp [emittedResults, List.filterMap_append, hr]
    rw [hemit, ih (j + 1) (some (.pipe (msg j))), List.range'_succ]
    rcases remaining with _ | r
    · simp [List.range']
    · have harith : j + 1 + (r + 1) - 1 = j + (r + 1 + 1) - 1 := by omega
      simp only [Nat.succ_ne_zero, if_false, List.map_cons, List.cons_append, harith]

/-- Claim C6 (amended): for a unit that is never cancelled, never hits the
budget cap, and whose every pipeline call fails, the run emits
`retryCount + 1` failed outcomes — one per attempt, plus a terminal emission
after the loop that repeats the final attempt's error. -/
theorem retry_all_fail_emits (env : BuyEnv) (giftID : Int) (msg : Nat → String)
    (hctx : ∀ k, env.ctxDone k = false)
    (hinc : ∀ k, env.tryIncrement k = true)
    (hp : ∀ k, env.purchase k = some (msg k))
    (hrc : 1 ≤ env.retryCount) :
    emittedResults (buyGiftWithRetry env giftID)
      = ((List.range env.retryCount).map fun i =>
          { giftID := giftID, success := false, err := some (.pipe (msg i)) })
        ++ [{ giftID := giftID, success := false,
              err := some (.pipe (msg (env.retryCount - 1))) }]
    ∧ (emittedResults (buyGiftWithRetry env giftID)).length = env.retryCount + 1
    ∧ (∀ r ∈ emittedResults (buyGiftWithRetry env giftID), r.success = false) := by
  have h := buyLoop_all_fail env giftID msg hctx hinc hp env.retryCount 0 none
  have hne : ¬ env.retryCount = 0 := by omega
  rw [List.range_eq_range']
  rw [buyGiftWithRetry]
  rw [h]
  simp only [hne, if_false]
  refine ⟨by simp, ?_, ?_⟩
  · simp
  · intro r hr
    simp only [List.mem_append, List.mem_map, List.mem_singleton] at hr
    rcases hr with ⟨i, _, hi⟩ | hr
    · rw [← hi]
    · rw [hr]

/-- Closed instance of the amended C6 on the two-attempt always-failing
environment. -/
theorem retry_all_fail_emits_witness :
    emittedResults (buyGiftWithRetry envAllFail 1)
      = [{ giftID := 1, success := false, err := some (.pipe "pipeline failure") },
         { giftID := 1, success := false, err := some (.pipe "pipeline failure") },
         { giftID := 1, success := false, err := some (.pipe "pipeline failure") }] :=
  (retry_all_fail_emits envAllFail 1 (fun _ => "pipeline failure")
    (fun _ => rfl) (fun _ => rfl) (fun _ => rfl) (by decide)).1

/-- Counterexample to claim C7 as stated: the pipeline's balance pre-check
validation error ("insufficient balance to buy gift") on attempt 0 does not
end the unit — attempt 1 still calls the purchase pipeline. -/
theorem validation_error_not_terminal_cex :
    envValFail.purchase 0 = some "insufficient balance to buy gift"
    ∧ BuyEvent.purchaseCall 1 ∈ buyGiftWithRetry envValFail 1 := by
  constructor
  · rfl
  · decide

/-- Claim C7 (amended): validation errors from the purchase pipeline are
retried like every other pipeline error — after any pipeline error on an
attempt with attempts remaining, the counter is decremented, the failure is
emitted, and the next attempt calls the pipeline again (provided the context
stays live and the counter admits it). -/
theorem validation_error_retried (env : BuyEnv) (giftID : Int)
    (remaining j : Nat) (lastErr : Option BuyErr) (msg : String)
    (h0 : env.ctxDone j = false) (h1 : env.tryIncrement j = true)
    (h2 : env.purchase j = some msg)
    (h3 : env.ctxDone (j + 1) = false) (h4 : env.tryIncrement (j + 1) = true) :
    BuyEvent.decrementCall j ∈ buyLoop env giftID (remaining + 2) j lastErr
    ∧ BuyEvent.purchaseCall (j + 1) ∈ buyLoop env giftID (remaining + 2) j lastErr := by
  have hstep : buyLoop env giftID (remaining + 2) j lastErr
      = .purchaseCall j :: .decrementCall j ::
        .emit { giftID := giftID, success := false, err := some (.pipe msg) } ::
        ([BuyEvent.sleepCall j] ++
          buyLoop env giftID (remaining + 1) (j + 1) (some (.pipe msg))) := by
    simp [buyLoop, h0, h1, h2]
  constructor
  · rw [hstep]; simp
  · rw [hstep]
    have : BuyEvent.purchaseCall (j + 1)
        ∈ buyLoop env giftID (remaining + 1) (j + 1) (some (.pipe msg)) := by
      simp only [buyLoop, h3, h4, Bool.not_true, if_false]
      rcases env.purchase (j + 1) with _ | m
      · simp
      · simp
    simp [this]

/-- Closed instance of the amended C7 on the validation-error environment:
the balance validation error is produced by the embedded purchase pipeline,
and the next attempt still reaches the pipeline. -/
theorem validation_error_retried_witness :
    BuyEvent.decrementCall 0 ∈ buyLoop envValFail 1 2 0 none
    ∧ BuyEvent.purchaseCall 1 ∈ buyLoop envValFail 1 2 0 none :=
  validation_error_retried envValFail 1 0 0 none
    "insufficient balance to buy gift" rfl rfl rfl rfl rfl

end GiftBuyer
